import Mathlib

/-!
Verification of the Collection Scheduling and Amortization Engine of the
LendingManagement repository.  Dates are modelled at day granularity as
Gregorian calendar triples, money as rational numbers; every function below
is a direct translation of the corresponding TypeScript source.
-/

namespace Lending

/-- A calendar date at day granularity (the code normalizes times with
`setHours(0,0,0,0)` before comparisons). -/
structure CDate where
  y : Int
  m : Int
  d : Int
deriving DecidableEq, Repr

/-- Gregorian leap-year rule. -/
def isLeap (y : Int) : Bool := (y % 4 == 0 && y % 100 != 0) || (y % 400 == 0)

/-- Number of days of month `m` (1-12) in year `y`. -/
def daysInMonth (y m : Int) : Int :=
  if m = 2 then (if isLeap y then 29 else 28)
  else if m = 4 ∨ m = 6 ∨ m = 9 ∨ m = 11 then 30
  else 31

/-- Model of `setDate(getDate() + 1)`: the following calendar day. -/
def nextDay (dt : CDate) : CDate :=
  if dt.d + 1 ≤ daysInMonth dt.y dt.m then ⟨dt.y, dt.m, dt.d + 1⟩
  else if dt.m + 1 ≤ 12 then ⟨dt.y, dt.m + 1, 1⟩
  else ⟨dt.y + 1, 1, 1⟩

/-- Model of `setDate(getDate() + n)`: advancing by `n` calendar days. -/
def addDaysN (n : Nat) (dt : CDate) : CDate := nextDay^[n] dt

/-- Model of `setMonth(getMonth() + 1)`: one calendar month later; a day-of-month
overflowing the target month rolls into the following month, exactly as a
JavaScript `Date` normalizes it. -/
def addMonth (dt : CDate) : CDate :=
  if dt.m ≥ 12 then
    (if dt.d ≤ daysInMonth (dt.y + 1) 1 then ⟨dt.y + 1, 1, dt.d⟩
     else ⟨dt.y + 1, 2, dt.d - daysInMonth (dt.y + 1) 1⟩)
  else
    (if dt.d ≤ daysInMonth dt.y (dt.m + 1) then ⟨dt.y, dt.m + 1, dt.d⟩
     else if dt.m + 1 ≥ 12 then ⟨dt.y + 1, 1, dt.d - daysInMonth dt.y (dt.m + 1)⟩
     else ⟨dt.y, dt.m + 2, dt.d - daysInMonth dt.y (dt.m + 1)⟩)

/-- Chronological strict order of normalized dates (timestamp `<`). -/
def dateLtB (a b : CDate) : Bool :=
  decide (a.y < b.y ∨ (a.y = b.y ∧ (a.m < b.m ∨ (a.m = b.m ∧ a.d < b.d))))

/-- Chronological order of normalized dates (timestamp `<=`). -/
def dateLeB (a b : CDate) : Bool :=
  decide (a.y < b.y ∨ (a.y = b.y ∧ (a.m < b.m ∨ (a.m = b.m ∧ a.d ≤ b.d))))

/-- Days of the years `0, …, y - 1` of the proleptic Gregorian calendar. -/
def daysBeforeYear (y : Int) : Int :=
  365 * y + (y + 3) / 4 - (y + 99) / 100 + (y + 399) / 400

/-- Days of the months `1, …, m - 1` of year `y`. -/
def daysBeforeMonth (y m : Int) : Int :=
  let L : Int := if isLeap y then 1 else 0
  if m = 1 then 0 else if m = 2 then 31 else if m = 3 then 59 + L
  else if m = 4 then 90 + L else if m = 5 then 120 + L else if m = 6 then 151 + L
  else if m = 7 then 181 + L else if m = 8 then 212 + L else if m = 9 then 243 + L
  else if m = 10 then 273 + L else if m = 11 then 304 + L else 334 + L

/-- Linear day number of a date. -/
def toDays (dt : CDate) : Int := daysBeforeYear dt.y + daysBeforeMonth dt.y dt.m + dt.d

/-- Model of `getDay()`: day of week, 0 = Sunday … 6 = Saturday (1970-01-01 ↦ 4). -/
def getDay (dt : CDate) : Int := (toDays dt + 5) % 7

/-- Loan record (`src/unnamed/part_004`, `interface Loan`); `due_date` is a
required field of the interface, so the defensive `loan.due_date ? … : new
Date()` fallbacks in the code always take the first branch. -/
structure Loan where
  id : String
  borrower_id : String
  principal : ℚ
  interest_rate : ℚ
  total_payable : ℚ
  balance : ℚ
  start_date : CDate
  due_date : CDate
  status : String
  payment_frequency : Option String
deriving DecidableEq, Repr

/-- Payment record (`interface Payment`), `payment_date` at day granularity. -/
structure Payment where
  id : String
  loan_id : String
  amount : ℚ
  payment_date : CDate
deriving DecidableEq, Repr

/-! ## Schedule Generator (`src/unnamed/part_005`, lines 506-563) -/

/-- One element of the generated schedule: date, the two temporal flags the
code stores for rendering, and the uniform per-entry target amount. -/
structure ScheduleEntry where
  date : CDate
  isPast : Bool
  isToday : Bool
  amount : Int
deriving DecidableEq, Repr

/-- The `incrementDate` helper of the schedule generator: advance by one period of the
frequency (`lump_sum` jumps to the end date; unrecognized values default to
one day). -/
def incrementDate (freq : String) (endD : CDate) (dt : CDate) : CDate :=
  if freq = "daily" then nextDay dt
  else if freq = "weekly" then addDaysN 7 dt
  else if freq = "monthly" then addMonth dt
  else if freq = "lump_sum" then endD
  else nextDay dt

/-- The `while (current <= end && safetyCounter < 1000)` loop collecting due
dates; `fuel` is the remaining allowance of the 1,000-iteration guard. -/
def scheduleLoop (freq : String) (endD : CDate) : Nat → CDate → List CDate
  | 0, _ => []
  | fuel + 1, current =>
    if dateLeB current endD then
      current :: scheduleLoop freq endD fuel (incrementDate freq endD current)
    else []

/-- The date sequence of the schedule: a single entry at the due date for
`lump_sum`, otherwise the loop started one period after `start_date`. -/
def scheduleDates (loan : Loan) : List CDate :=
  if loan.payment_frequency.getD "daily" = "lump_sum" then [loan.due_date]
  else
    scheduleLoop (loan.payment_frequency.getD "daily") loan.due_date 1000
      (incrementDate (loan.payment_frequency.getD "daily") loan.due_date loan.start_date)

/-- The full schedule: each date is tagged with its temporal flags against
the reference day and the uniform target
`Math.ceil(total_payable / (dates.length || 1))`. -/
def schedule (loan : Loan) (today : CDate) : List ScheduleEntry :=
  let dates := scheduleDates loan
  let n : Int := if dates.length = 0 then 1 else (dates.length : Int)
  dates.map (fun c => ⟨c, dateLtB c today, c == today, ⌈loan.total_payable / (n : ℚ)⌉⟩)

/-- The past/today/upcoming classification the UI derives from the two
stored flags of a schedule entry. -/
def temporalClass (e : ScheduleEntry) : String :=
  if e.isPast then "past" else if e.isToday then "today" else "upcoming"

/-! ## Payment Reconciler, loan-status site (`part_005`, lines 566-583) -/

/-- Payments of the loan whose `payment_date` falls on the reference day. -/
def paymentsToday (history : List Payment) (todayD : CDate) : List Payment :=
  history.filter (fun p => p.payment_date == todayD)

/-- Model of `reduce((acc, curr) => acc + curr.amount, 0)` over those payments. -/
def amountPaidToday (history : List Payment) (todayD : CDate) : ℚ :=
  (paymentsToday history todayD).foldl (fun acc p => acc + p.amount) 0

/-- Model of `Math.max(0, currentInstallmentAmount - amountPaidToday)`. -/
def remainingDueToday (target : ℚ) (history : List Payment) (todayD : CDate) : ℚ :=
  max 0 (target - amountPaidToday history todayD)

/-- Model of `amountPaidToday >= currentInstallmentAmount`. -/
def isFullyPaidToday (target : ℚ) (history : List Payment) (todayD : CDate) : Bool :=
  decide (target ≤ amountPaidToday history todayD)

/-! ## Due-Today Matcher and dashboard worklist (`part_005`, lines 951-1015) -/

/-- The filter of `scheduledCollections`: status must be active or
defaulted, the loan must have started, and the frequency rule must hold
(`daily` and the switch default always match). -/
def dueTodayMatch (loan : Loan) (selectedDate : CDate) : Bool :=
  if !(loan.status == "active" || loan.status == "defaulted") then false
  else if dateLtB selectedDate loan.start_date then false
  else if loan.payment_frequency == some "weekly" then
    getDay loan.start_date == getDay selectedDate
  else if loan.payment_frequency == some "monthly" then
    loan.start_date.d == selectedDate.d
  else if loan.payment_frequency == some "lump_sum" then
    loan.due_date == selectedDate
  else true

/-- Model of `Math.max(1, Math.ceil(Math.abs(end - start) in days))`. -/
def termDays (startD endD : CDate) : Int :=
  max 1 ((toDays endD - toDays startD).natAbs : Int)

/-- Divisor of the dashboard's per-loan target: `let divisor = 1` followed by
the three `if` branches — frequencies outside daily/weekly/monthly
(including `lump_sum` and unrecognized values) keep the initial 1. -/
def schedDivisor (freq : Option String) (diffDays : Int) : Int :=
  if freq == some "daily" then diffDays
  else if freq == some "weekly" then max 1 ⌈(diffDays : ℚ) / 7⌉
  else if freq == some "monthly" then max 1 ⌈(diffDays : ℚ) / 30⌉
  else 1

/-- The per-loan annotation of `scheduledCollections`: target amount, the
amount of the first payment found for the loan on the selected date, and a
paid flag recording whether such a payment exists. -/
structure CollectionItem where
  targetAmount : ℚ
  paidAmount : ℚ
  isPaid : Bool
deriving DecidableEq, Repr

/-- The `.map` body of `scheduledCollections`. -/
def collectionAnnotate (loan : Loan) (payments : List Payment) (selectedDate : CDate) :
    CollectionItem :=
  let paymentToday :=
    payments.find? (fun p => p.loan_id == loan.id && p.payment_date == selectedDate)
  let diffDays := termDays loan.start_date loan.due_date
  let divisor := schedDivisor loan.payment_frequency diffDays
  { targetAmount := loan.total_payable / (divisor : ℚ)
  , paidAmount := match paymentToday with | some p => p.amount | none => 0
  , isPaid := paymentToday.isSome }

/-- The dashboard collection worklist: eligible loans with annotations. -/
def scheduledCollections (loans : List Loan) (payments : List Payment)
    (selectedDate : CDate) : List (Loan × CollectionItem) :=
  (loans.filter (fun l => dueTodayMatch l selectedDate)).map
    (fun l => (l, collectionAnnotate l payments selectedDate))

/-! ## Amortization (`src/components/Loans.tsx` and `part_004`) -/

/-- Model of `totalPayable = principalNum + principalNum * (interestRate / 100)`. -/
def totalPayable (principal rate : ℚ) : ℚ := principal + principal * (rate / 100)

/-- Divisor switch of `getInstallmentInfo` (`Loans.tsx`, lines 46-62). -/
def installmentDivisor (freq : String) (days : Int) : Int :=
  if freq = "daily" then days
  else if freq = "weekly" then ⌈(days : ℚ) / 7⌉
  else if freq = "monthly" then ⌈(days : ℚ) / 30⌉
  else if freq = "lump_sum" then 1
  else days

/-- Result of `getInstallmentInfo`: a per-period amount and a period count. -/
structure InstallmentInfo where
  amount : ℚ
  count : Int
deriving DecidableEq, Repr

/-- Model of `getInstallmentInfo` (`Loans.tsx`, lines 43-71): degenerate inputs short
circuit to `{amount: 0, count: 0}`; otherwise the divisor is clamped to 1. -/
def getInstallmentInfo (total : ℚ) (days : Int) (freq : String) : InstallmentInfo :=
  if total ≤ 0 ∨ days ≤ 0 then ⟨0, 0⟩
  else
    let d0 := installmentDivisor freq days
    let divisor := if d0 < 1 then 1 else d0
    ⟨total / (divisor : ℚ), divisor⟩

/-- The installment target the loan views derive from `getInstallmentInfo`:
`Math.ceil(installmentInfo.amount)` (`Loans.tsx`, lines 251 and 564). -/
def displayedInstallment (total : ℚ) (days : Int) (freq : String) : Int :=
  ⌈(getInstallmentInfo total days freq).amount⌉

/-- Divisor switch of `getTargetPayment` (`part_004`, lines 77-86). -/
def targetDivisor (freq : String) (diffDays : Int) : Int :=
  if freq = "daily" then diffDays
  else if freq = "weekly" then max 1 ⌈(diffDays : ℚ) / 7⌉
  else if freq = "monthly" then max 1 ⌈(diffDays : ℚ) / 30⌉
  else if freq = "lump_sum" then 1
  else diffDays

/-- Result of `getTargetPayment`. -/
structure TargetInfo where
  amount : Int
  frequency : String
deriving DecidableEq, Repr

/-- Model of `getTargetPayment` (`part_004`, lines 72-92): the per-period target is
`Math.ceil(total_payable / divisor)`. -/
def getTargetPayment (loan : Loan) : TargetInfo :=
  let diffDays := termDays loan.start_date loan.due_date
  let freq := loan.payment_frequency.getD "daily"
  ⟨⌈loan.total_payable / (targetDivisor freq diffDays : ℚ)⌉, freq⟩

/-- Model of `loans.filter(l => l.balance > 0)` (`part_004`, line 66). -/
def activeLoans (loans : List Loan) : List Loan :=
  loans.filter (fun l => decide (0 < l.balance))

/-- The loan record inserted by `handleCreateLoan` (`Loans.tsx`, lines
89-100): total payable computed once and stored, balance initialized to it,
status active. -/
def issueLoan (id bid : String) (principal rate : ℚ) (startD due : CDate)
    (freq : String) : Loan :=
  { id := id, borrower_id := bid, principal := principal, interest_rate := rate
  , total_payable := totalPayable principal rate, balance := totalPayable principal rate
  , start_date := startD, due_date := due, status := "active"
  , payment_frequency := some freq }

/-- Balance/status mutation of `handleSubmit` (`part_004`, lines 117-120):
`newBalance = Math.max(0, balance - amount)`, status paid exactly at 0. -/
def applyPayment (balance amount : ℚ) : ℚ × String :=
  let newBalance := max 0 (balance - amount)
  (newBalance, if newBalance = 0 then "paid" else "active")

/-! ## Borrower Standing Classifier (`src/unnamed/part_003`) -/

/-- Result of `analyzeStanding` (the purely presentational `color` field is
omitted). -/
structure BorrowerStanding where
  status : String
  reason : String
deriving DecidableEq, Repr

/-- The `analyzeStanding` function: the ordered rule chain over a borrower's loans (the
`total` / `paid` / `defaulted` / `overdue` counters of the source are
inlined). -/
def analyzeStanding (loans : List Loan) (today : CDate) : BorrowerStanding :=
  if loans.length = 0 then ⟨"New", "No history yet."⟩
  else if 0 < (loans.filter (fun l => l.status == "defaulted")).length then
    ⟨"Delinquent",
     "Has " ++ toString (loans.filter (fun l => l.status == "defaulted")).length ++
       " defaulted loan(s). High risk."⟩
  else if 0 < (loans.filter (fun l => l.status == "active" && dateLtB l.due_date today)).length
  then
    ⟨"Delinquent",
     "Has " ++ toString (loans.filter
         (fun l => l.status == "active" && dateLtB l.due_date today)).length ++
       " overdue active loan(s)."⟩
  else if 0 < (loans.filter (fun l => l.status == "paid")).length ∧
      (loans.filter (fun l => l.status == "paid")).length = loans.length then
    ⟨"Good Payer", "Perfect payment history. All loans paid."⟩
  else if 0 < (loans.filter (fun l => l.status == "paid")).length then
    ⟨"Good Payer",
     "Has successfully paid " ++
       toString (loans.filter (fun l => l.status == "paid")).length ++ " loan(s)."⟩
  else ⟨"Neutral", "Active loans exist but no full payment history yet."⟩

/-! ## Concrete records used to instantiate the theorems -/

/-- The date 2024-01-01 (a Monday). -/
def dJan1 : CDate := ⟨2024, 1, 1⟩

/-- The date 2024-01-02. -/
def dJan2 : CDate := ⟨2024, 1, 2⟩

/-- The date 2024-01-03. -/
def dJan3 : CDate := ⟨2024, 1, 3⟩

/-- The date 2024-01-08 (the following Monday). -/
def dJan8 : CDate := ⟨2024, 1, 8⟩

/-- A defaulted loan. -/
def loanDefaulted : Loan :=
  ⟨"L1", "B1", 1000, 20, 1200, 1200, dJan1, dJan3, "defaulted", some "daily"⟩

/-- A fully paid loan. -/
def loanPaid : Loan :=
  ⟨"L2", "B1", 1000, 20, 1200, 0, dJan1, dJan3, "paid", some "daily"⟩

/-- An active weekly loan started on a Monday. -/
def loanWeekly : Loan :=
  ⟨"L3", "B2", 1000, 20, 1200, 1200, dJan1, ⟨2024, 3, 1⟩, "active", some "weekly"⟩

/-- An active lump-sum loan. -/
def loanLump : Loan :=
  ⟨"L4", "B2", 1000, 20, 1200, 1200, dJan1, dJan3, "active", some "lump_sum"⟩

/-- A lump-sum loan with zero payable (keeps per-entry targets at 0). -/
def loanLumpZero : Loan :=
  ⟨"L5", "B2", 0, 0, 0, 0, dJan1, dJan3, "active", some "lump_sum"⟩

/-- A one-day daily loan with target 120. -/
def loanCex : Loan :=
  ⟨"L6", "B3", 100, 20, 120, 120, dJan1, dJan2, "active", some "daily"⟩

/-- A partial payment of 50 on 2024-01-02 against `loanCex`. -/
def payCex : Payment := ⟨"P1", "L6", 50, dJan2⟩

/-! ## Order facts about the calendar embedding -/

theorem dateLtB_irrefl (a : CDate) : dateLtB a a = false := by
  simp [dateLtB]

theorem dateLtB_eq_false_iff (a b : CDate) : dateLtB a b = false ↔ dateLeB b a = true := by
  simp only [dateLtB, dateLeB, decide_eq_false_iff_not, decide_eq_true_eq]
  omega

theorem dateLtB_trans {a b c : CDate} (h1 : dateLtB a b = true) (h2 : dateLtB b c = true) :
    dateLtB a c = true := by
  simp only [dateLtB, decide_eq_true_eq] at h1 h2 ⊢
  omega

theorem dateLtB_nextDay (a : CDate) : dateLtB a (nextDay a) = true := by
  unfold nextDay
  split_ifs <;> simp [dateLtB]

theorem dateLtB_addMonth (a : CDate) : dateLtB a (addMonth a) = true := by
  unfold addMonth
  split_ifs <;> simp [dateLtB]

theorem dateLtB_addDaysN (n : Nat) (a : CDate) : dateLtB a (addDaysN (n + 1) a) = true := by
  induction n generalizing a with
  | zero => simpa [addDaysN] using dateLtB_nextDay a
  | succ k ih =>
      have h2 : addDaysN (k + 1 + 1) a = addDaysN (k + 1) (nextDay a) := by
        simp [addDaysN, Function.iterate_succ_apply]
      rw [h2]
      exact dateLtB_trans (dateLtB_nextDay a) (ih (nextDay a))

theorem dateLtB_incrementDate (freq : String) (hf : freq ≠ "lump_sum") (endD d : CDate) :
    dateLtB d (incrementDate freq endD d) = true := by
  unfold incrementDate
  by_cases h1 : freq = "daily"
  · simp only [if_pos h1]; exact dateLtB_nextDay d
  by_cases h2 : freq = "weekly"
  · simp only [if_neg h1, if_pos h2]; exact dateLtB_addDaysN 6 d
  by_cases h3 : freq = "monthly"
  · simp only [if_neg h1, if_neg h2, if_pos h3]; exact dateLtB_addMonth d
  simp only [if_neg h1, if_neg h2, if_neg h3, if_neg hf]
  exact dateLtB_nextDay d

/-! ## Structure of the generation loop -/

theorem scheduleLoop_eq_takeWhile (freq : String) (endD : CDate) :
    ∀ (fuel : Nat) (c : CDate),
      scheduleLoop freq endD fuel c =
        ((List.range fuel).map (fun i => (incrementDate freq endD)^[i] c)).takeWhile
          (fun x => dateLeB x endD) := by
  intro fuel
  induction fuel with
  | zero => intro c; simp [scheduleLoop]
  | succ n ih =>
      intro c
      rw [scheduleLoop, List.range_succ_eq_map, List.map_cons, List.map_map,
        List.takeWhile_cons]
      simp only [Function.iterate_zero_apply, Function.comp_def,
        Function.iterate_succ_apply]
      by_cases h : dateLeB c endD = true
      · simp [h, ih (incrementDate freq endD c)]
      · simp [h]

theorem scheduleLoop_all_gt (freq : String) (endD : CDate) (hf : freq ≠ "lump_sum") :
    ∀ (fuel : Nat) (c s : CDate), dateLtB s c = true →
      ∀ x ∈ scheduleLoop freq endD fuel c, dateLtB s x = true := by
  intro fuel
  induction fuel with
  | zero => intro c s _ x hx; simp [scheduleLoop] at hx
  | succ n ih =>
      intro c s hsc x hx
      rw [scheduleLoop] at hx
      by_cases h : dateLeB c endD = true
      · rw [if_pos h] at hx
        rcases List.mem_cons.mp hx with rfl | hx2
        · exact hsc
        · exact ih _ s (dateLtB_trans hsc (dateLtB_incrementDate freq hf endD c)) x hx2
      · rw [if_neg h] at hx; simp at hx

theorem scheduleLoop_head (freq : String) (endD : CDate) (fuel : Nat) (c x : CDate)
    (h : (scheduleLoop freq endD (fuel + 1) c).head? = some x) : x = c := by
  rw [scheduleLoop] at h
  by_cases hc : dateLeB c endD = true
  · rw [if_pos hc] at h
    simp only [List.head?_cons, Option.some.injEq] at h
    exact h.symm
  · rw [if_neg hc] at h
    simp at h

theorem schedule_map_date (loan : Loan) (today : CDate) :
    (schedule loan today).map ScheduleEntry.date = scheduleDates loan := by
  simp [schedule, Function.comp_def]

theorem foldl_add_amount (l : List Payment) (init : ℚ) :
    l.foldl (fun acc p => acc + p.amount) init = init + (l.map Payment.amount).sum := by
  induction l generalizing init with
  | nil => simp
  | cons p t ih => simp [ih, add_assoc]

theorem termDays_pos (startD endD : CDate) : 1 ≤ termDays startD endD :=
  le_max_left 1 _

theorem targetDivisor_pos (freq : String) (diffDays : Int) (hd : 1 ≤ diffDays) :
    1 ≤ targetDivisor freq diffDays := by
  unfold targetDivisor
  split_ifs <;> first | exact hd | exact le_max_left 1 _ | exact le_refl 1

theorem schedDivisor_pos (freq : Option String) (diffDays : Int) (hd : 1 ≤ diffDays) :
    1 ≤ schedDivisor freq diffDays := by
  unfold schedDivisor
  split_ifs <;> first | exact hd | exact le_max_left 1 _ | exact le_refl 1

theorem ceil_div_seven_pos (days : Int) (hd : 1 ≤ days) : 1 ≤ ⌈(days : ℚ) / 7⌉ := by
  have h7 : (0 : ℚ) < 7 := by norm_num
  have : (0 : ℚ) < (days : ℚ) / 7 := by
    apply div_pos _ h7
    exact_mod_cast lt_of_lt_of_le Int.zero_lt_one hd
  exact Int.ceil_pos.mpr this

theorem ceil_div_thirty_pos (days : Int) (hd : 1 ≤ days) : 1 ≤ ⌈(days : ℚ) / 30⌉ := by
  have h30 : (0 : ℚ) < 30 := by norm_num
  have : (0 : ℚ) < (days : ℚ) / 30 := by
    apply div_pos _ h30
    exact_mod_cast lt_of_lt_of_le Int.zero_lt_one hd
  exact Int.ceil_pos.mpr this

theorem getInstallmentInfo_count_pos (total : ℚ) (days : Int) (freq : String)
    (ht : 0 < total) (hd : 1 ≤ days) : 1 ≤ (getInstallmentInfo total days freq).count := by
  unfold getInstallmentInfo
  rw [if_neg (by push_neg; exact ⟨ht, by omega⟩)]
  by_cases h : installmentDivisor freq days < 1 <;> simp [h] <;> omega

theorem displayedInstallment_eq (total : ℚ) (days : Int) (freq : String)
    (ht : 0 < total) (hd : 1 ≤ days) :
    displayedInstallment total days freq =
      ⌈total / ((getInstallmentInfo total days freq).count : ℚ)⌉ := by
  unfold displayedInstallment getInstallmentInfo
  rw [if_neg (by push_neg; exact ⟨ht, by omega⟩)]

/-! ## Claim theorems -/

/-- C9: after recording a payment of amount `A` against a loan with balance
`B`, the new balance is `max 0 (B - A)` — hence non-negative and, for a
non-negative payment against a non-negative balance, non-increasing — and
the new status is `paid` exactly when the new balance is 0, else `active`. -/
theorem applyPayment_invariant (balance amount : ℚ) (hb : 0 ≤ balance) (ha : 0 ≤ amount) :
    (applyPayment balance amount).1 = max 0 (balance - amount) ∧
    0 ≤ (applyPayment balance amount).1 ∧
    (applyPayment balance amount).1 ≤ balance ∧
    ((applyPayment balance amount).2 = "paid" ↔ (applyPayment balance amount).1 = 0) ∧
    ((applyPayment balance amount).2 = "paid" ∨ (applyPayment balance amount).2 = "active") := by
  unfold applyPayment
  refine ⟨rfl, le_max_left 0 _, max_le hb (sub_le_self balance ha), ?_, ?_⟩
  · by_cases h : max 0 (balance - amount) = 0 <;> simp [h]
  · by_cases h : max 0 (balance - amount) = 0 <;> simp [h]

/-- C9 witness: instantiated at balance 100 and payment 40. -/
theorem applyPayment_invariant_witness :
    (applyPayment 100 40).1 = max 0 ((100 : ℚ) - 40) :=
  (applyPayment_invariant 100 40 (by norm_num) (by norm_num)).1

/-- C10: the payment screen offers exactly the loans with a strictly
positive balance, independently of their status. -/
theorem activeLoans_mem (loans : List Loan) (l : Loan) :
    l ∈ activeLoans loans ↔ l ∈ loans ∧ 0 < l.balance := by
  simp [activeLoans, List.mem_filter]

/-- C2 (amended): for term_days ≥ 1 the divisors of `getInstallmentInfo`
and `getTargetPayment` follow the claimed per-frequency rules, including
the fallback to the daily rule for frequencies outside the enumerated set;
the dashboard's `scheduledCollections` divisor follows the rules for daily,
weekly, monthly and lump_sum, but for any other frequency value it stays at
1 instead of falling back to the daily rule. -/
theorem divisor_rules (days : Int) (hd : 1 ≤ days) :
    (installmentDivisor "daily" days = days ∧
     installmentDivisor "weekly" days = max 1 ⌈(days : ℚ) / 7⌉ ∧
     installmentDivisor "monthly" days = max 1 ⌈(days : ℚ) / 30⌉ ∧
     installmentDivisor "lump_sum" days = 1 ∧
     ∀ f : String, f ∉ (["daily", "weekly", "monthly", "lump_sum"] : List String) →
       installmentDivisor f days = days) ∧
    (targetDivisor "daily" days = days ∧
     targetDivisor "weekly" days = max 1 ⌈(days : ℚ) / 7⌉ ∧
     targetDivisor "monthly" days = max 1 ⌈(days : ℚ) / 30⌉ ∧
     targetDivisor "lump_sum" days = 1 ∧
     ∀ f : String, f ∉ (["daily", "weekly", "monthly", "lump_sum"] : List String) →
       targetDivisor f days = days) ∧
    (schedDivisor (some "daily") days = days ∧
     schedDivisor (some "weekly") days = max 1 ⌈(days : ℚ) / 7⌉ ∧
     schedDivisor (some "monthly") days = max 1 ⌈(days : ℚ) / 30⌉ ∧
     schedDivisor (some "lump_sum") days = 1 ∧
     ∀ f : Option String,
       f ∉ ([some "daily", some "weekly", some "monthly"] : List (Option String)) →
       schedDivisor f days = 1) := by
  refine ⟨⟨rfl, ?_, ?_, rfl, ?_⟩, ⟨rfl, rfl, rfl, rfl, ?_⟩, ⟨rfl, rfl, rfl, rfl, ?_⟩⟩
  · exact (show installmentDivisor "weekly" days = ⌈(days : ℚ) / 7⌉ from rfl).trans
      (max_eq_right (ceil_div_seven_pos days hd)).symm
  · exact (show installmentDivisor "monthly" days = ⌈(days : ℚ) / 30⌉ from rfl).trans
      (max_eq_right (ceil_div_thirty_pos days hd)).symm
  · intro f hf
    simp only [List.mem_cons, List.not_mem_nil, or_false, not_or] at hf
    obtain ⟨h1, h2, h3, h4⟩ := hf
    simp [installmentDivisor, h1, h2, h3, h4]
  · intro f hf
    simp only [List.mem_cons, List.not_mem_nil, or_false, not_or] at hf
    obtain ⟨h1, h2, h3, h4⟩ := hf
    simp [targetDivisor, h1, h2, h3, h4]
  · intro f hf
    simp only [List.mem_cons, List.not_mem_nil, or_false, not_or] at hf
    obtain ⟨h1, h2, h3⟩ := hf
    simp [schedDivisor, h1, h2, h3]

/-- C2 counterexample: for the frequency value `fortnightly` — outside the
enumerated set — with term_days 10, the dashboard divisor is 1, not the
daily rule's 10. -/
theorem schedDivisor_fallback_counterexample :
    schedDivisor (some "fortnightly") 10 = 1 ∧
    ¬schedDivisor (some "fortnightly") 10 = 10 := by
  decide

/-- C2 witness: the daily rule at term_days 10. -/
theorem divisor_rules_witness : targetDivisor "daily" 10 = 10 :=
  (divisor_rules 10 (by norm_num)).2.1.1

/-- C8 (amended): wherever the installment logic divides, the divisor is at
least 1: `getInstallmentInfo` clamps its divisor whenever total > 0 and
days ≥ 1, while for total ≤ 0 or days ≤ 0 it short-circuits to
`{amount: 0, count: 0}` without dividing (so the returned count is 0 on
that degenerate path); term_days derived from dates is floored to 1 — in
particular start_date = due_date yields 1 — and the divisors used by
`getTargetPayment` and `scheduledCollections` are always at least 1. -/
theorem divisor_clamped (total : ℚ) (days : Int) (freq : String) (loan : Loan)
    (startD due : CDate) :
    (0 < total → 1 ≤ days → 1 ≤ (getInstallmentInfo total days freq).count) ∧
    (total ≤ 0 ∨ days ≤ 0 → getInstallmentInfo total days freq = ⟨0, 0⟩) ∧
    1 ≤ termDays startD due ∧
    (startD = due → termDays startD due = 1) ∧
    1 ≤ targetDivisor (loan.payment_frequency.getD "daily")
        (termDays loan.start_date loan.due_date) ∧
    1 ≤ schedDivisor loan.payment_frequency (termDays loan.start_date loan.due_date) := by
  refine ⟨?_, ?_, termDays_pos startD due, ?_,
    targetDivisor_pos _ _ (termDays_pos loan.start_date loan.due_date),
    schedDivisor_pos _ _ (termDays_pos loan.start_date loan.due_date)⟩
  · intro ht hd
    exact getInstallmentInfo_count_pos total days freq ht hd
  · intro h
    unfold getInstallmentInfo
    rw [if_pos h]
  · intro h
    subst h
    simp [termDays]

/-- C8 counterexample: `getInstallmentInfo` called with term 0 (reachable
from the create-loan preview when the days-to-pay field is 0 or empty)
returns a period count of 0, not one that is at least 1. -/
theorem getInstallmentInfo_count_counterexample :
    (getInstallmentInfo 1200 0 "daily").count = 0 ∧
    ¬(1 ≤ (getInstallmentInfo 1200 0 "daily").count) := by
  decide

/-- C8 witness: start_date = due_date gives term_days 1. -/
theorem divisor_clamped_witness : termDays dJan1 dJan1 = 1 :=
  (divisor_clamped 1 1 "daily" loanCex dJan1 dJan1).2.2.2.1 rfl

/-- C3: a loan issued with positive principal and non-negative rate stores
total_payable = principal + principal·rate/100, and both amortization call
sites divide it by an integer period count ≥ 1 and round the per-period
target up with ceiling: `getTargetPayment` applies `Math.ceil` itself,
while the loan views apply `Math.ceil` to `getInstallmentInfo`'s quotient
(`displayedInstallment`). -/
theorem amortization_correct (id bid : String) (principal rate : ℚ) (startD due : CDate)
    (freq : String) (days : Int) (hp : 0 < principal) (hr : 0 ≤ rate) (hd : 1 ≤ days) :
    (issueLoan id bid principal rate startD due freq).total_payable
        = principal + principal * rate / 100 ∧
    1 ≤ targetDivisor freq (termDays startD due) ∧
    (getTargetPayment (issueLoan id bid principal rate startD due freq)).amount =
      ⌈(issueLoan id bid principal rate startD due freq).total_payable /
        (targetDivisor freq (termDays startD due) : ℚ)⌉ ∧
    1 ≤ (getInstallmentInfo (totalPayable principal rate) days freq).count ∧
    displayedInstallment (totalPayable principal rate) days freq =
      ⌈totalPayable principal rate /
        ((getInstallmentInfo (totalPayable principal rate) days freq).count : ℚ)⌉ := by
  have htp : 0 < totalPayable principal rate := by
    unfold totalPayable
    have h1 : 0 ≤ principal * (rate / 100) :=
      mul_nonneg hp.le (div_nonneg hr (by norm_num))
    linarith
  refine ⟨?_, targetDivisor_pos freq _ (termDays_pos startD due), rfl,
    getInstallmentInfo_count_pos _ _ _ htp hd, displayedInstallment_eq _ _ _ htp hd⟩
  show totalPayable principal rate = _
  unfold totalPayable
  ring

/-- C3 witness: principal 1000 at 20 percent over a 10-day daily term,
covering the stored total and the display-site ceiling. -/
theorem amortization_correct_witness :
    (issueLoan "L7" "B4" 1000 20 dJan1 dJan3 "daily").total_payable
        = 1000 + 1000 * 20 / 100 ∧
    displayedInstallment (totalPayable 1000 20) 10 "daily" =
      ⌈totalPayable 1000 20 /
        ((getInstallmentInfo (totalPayable 1000 20) 10 "daily").count : ℚ)⌉ := by
  have h := amortization_correct "L7" "B4" 1000 20 dJan1 dJan3 "daily" 10
    (by norm_num) (by norm_num) (by norm_num)
  exact ⟨h.1, h.2.2.2.2⟩

/-- C4: a loan appears in the dashboard worklist iff its status is active
or defaulted (never paid), it has started by the reference date, and the
frequency rule holds: weekly matches on equal day of week, monthly on equal
day of month, lump_sum on the due date, and daily (like any unmatched
frequency value) always. -/
theorem dueToday_iff (loans : List Loan) (payments : List Payment) (loan : Loan)
    (refD : CDate) :
    (loan ∈ (scheduledCollections loans payments refD).map Prod.fst ↔
      loan ∈ loans ∧ dueTodayMatch loan refD = true) ∧
    (dueTodayMatch loan refD = true ↔
      ((loan.status = "active" ∨ loan.status = "defaulted") ∧
       dateLeB loan.start_date refD = true ∧
       (if loan.payment_frequency = some "weekly" then
          getDay loan.start_date = getDay refD
        else if loan.payment_frequency = some "monthly" then
          loan.start_date.d = refD.d
        else if loan.payment_frequency = some "lump_sum" then
          loan.due_date = refD
        else True))) ∧
    (loan.status = "paid" → dueTodayMatch loan refD = false) := by
  refine ⟨?_, ?_, ?_⟩
  · simp [scheduledCollections, Function.comp_def, List.mem_filter]
  · unfold dueTodayMatch
    by_cases hs : loan.status = "active" ∨ loan.status = "defaulted"
    · have h1 : (!(loan.status == "active" || loan.status == "defaulted")) = false := by
        rcases hs with h | h <;> simp [h]
      rw [h1]
      simp only [Bool.false_eq_true, if_false]
      by_cases hlt : dateLtB refD loan.start_date = true
      · have h2 : dateLeB loan.start_date refD = false := by
          cases hq : dateLeB loan.start_date refD
          · rfl
          · exact absurd ((dateLtB_eq_false_iff refD loan.start_date).mpr hq)
              (by simp [hlt])
        rw [if_pos hlt]
        simp [h2]
      · have hlt2 : dateLtB refD loan.start_date = false := by
          simpa using hlt
        have h2 : dateLeB loan.start_date refD = true :=
          (dateLtB_eq_false_iff refD loan.start_date).mp hlt2
        rw [if_neg hlt]
        simp only [hs, h2, true_and]
        by_cases hw : loan.payment_frequency = some "weekly"
        · simp [hw]
        · by_cases hm : loan.payment_frequency = some "monthly"
          · simp [hw, hm]
          · by_cases hl : loan.payment_frequency = some "lump_sum"
            · simp [hw, hm, hl]
            · simp [hw, hm, hl]
    · push_neg at hs
      have h1 : (!(loan.status == "active" || loan.status == "defaulted")) = true := by
        simp [hs.1, hs.2]
      rw [h1]
      simp [hs.1, hs.2]
  · intro hp
    have h1 : (!(loan.status == "active" || loan.status == "defaulted")) = true := by
      simp [hp]
    unfold dueTodayMatch
    rw [h1]
    simp

/-- C4 witness: a weekly loan started on Monday 2024-01-01 matches the
following Monday. -/
theorem dueToday_iff_witness : dueTodayMatch loanWeekly dJan8 = true :=
  ((dueToday_iff [loanWeekly] [] loanWeekly dJan8).2.1).mpr (by decide)

/-- C5: the standing classifier applies the first matching rule of the
fixed priority order: empty list → New; any defaulted loan → Delinquent
with the defaulted count; else any overdue active loan → Delinquent with
the overdue count; else all loans paid → Good Payer (perfect history);
else some loan paid → Good Payer with the paid count; else Neutral. -/
theorem analyzeStanding_rules (loans : List Loan) (today : CDate) :
    (loans = [] → analyzeStanding loans today = ⟨"New", "No history yet."⟩) ∧
    (loans ≠ [] →
      0 < (loans.filter (fun l => l.status == "defaulted")).length →
      analyzeStanding loans today =
        ⟨"Delinquent",
         "Has " ++ toString (loans.filter (fun l => l.status == "defaulted")).length ++
           " defaulted loan(s). High risk."⟩) ∧
    (loans ≠ [] →
      (loans.filter (fun l => l.status == "defaulted")).length = 0 →
      0 < (loans.filter (fun l => l.status == "active" && dateLtB l.due_date today)).length →
      analyzeStanding loans today =
        ⟨"Delinquent",
         "Has " ++ toString (loans.filter
             (fun l => l.status == "active" && dateLtB l.due_date today)).length ++
           " overdue active loan(s)."⟩) ∧
    (loans ≠ [] →
      (loans.filter (fun l => l.status == "defaulted")).length = 0 →
      (loans.filter (fun l => l.status == "active" && dateLtB l.due_date today)).length = 0 →
      (loans.filter (fun l => l.status == "paid")).length = loans.length →
      analyzeStanding loans today =
        ⟨"Good Payer", "Perfect payment history. All loans paid."⟩) ∧
    (loans ≠ [] →
      (loans.filter (fun l => l.status == "defaulted")).length = 0 →
      (loans.filter (fun l => l.status == "active" && dateLtB l.due_date today)).length = 0 →
      0 < (loans.filter (fun l => l.status == "paid")).length →
      (loans.filter (fun l => l.status == "paid")).length ≠ loans.length →
      analyzeStanding loans today =
        ⟨"Good Payer",
         "Has successfully paid " ++
           toString (loans.filter (fun l => l.status == "paid")).length ++ " loan(s)."⟩) ∧
    (loans ≠ [] →
      (loans.filter (fun l => l.status == "defaulted")).length = 0 →
      (loans.filter (fun l => l.status == "active" && dateLtB l.due_date today)).length = 0 →
      (loans.filter (fun l => l.status == "paid")).length = 0 →
      analyzeStanding loans today =
        ⟨"Neutral", "Active loans exist but no full payment history yet."⟩) := by
  refine ⟨?_, ?_, ?_, ?_, ?_, ?_⟩
  · intro h; subst h; rfl
  · intro hne hd
    unfold analyzeStanding
    rw [if_neg (by simp [hne]), if_pos hd]
  · intro hne hd ho
    unfold analyzeStanding
    rw [if_neg (by simp [hne]), if_neg (by omega), if_pos ho]
  · intro hne hd ho hall
    have hlen : 0 < loans.length := List.length_pos.mpr hne
    unfold analyzeStanding
    rw [if_neg (by simp [hne]), if_neg (by omega), if_neg (by omega),
      if_pos ⟨by omega, hall⟩]
  · intro hne hd ho hp hneq
    unfold analyzeStanding
    rw [if_neg (by simp [hne]), if_neg (by omega), if_neg (by omega),
      if_neg (fun hc => hneq hc.2), if_pos hp]
  · intro hne hd ho hp
    unfold analyzeStanding
    rw [if_neg (by simp [hne]), if_neg (by omega), if_neg (by omega),
      if_neg (by omega), if_neg (by omega)]

/-- C5 witness: one defaulted and one paid loan yield Delinquent, because
the defaulted rule precedes the paid rules. -/
theorem analyzeStanding_rules_witness :
    analyzeStanding [loanDefaulted, loanPaid] dJan2 =
      ⟨"Delinquent", "Has 1 defaulted loan(s). High risk."⟩ := by
  have h := (analyzeStanding_rules [loanDefaulted, loanPaid] dJan2).2.1
    (by decide) (by decide)
  rw [h]
  decide

/-- C6 (amended): at the loan-status site the reconciler sums every payment
dated on the reference day, computes remaining = max(0, target − collected)
and fully-paid = collected ≥ target; at the dashboard site, however, the
paid amount is the amount of only the first payment matching the loan and
date (0 if none) and the paid flag records mere existence of a matching
payment, not collected ≥ target. -/
theorem payment_reconciler (target : ℚ) (history : List Payment) (todayD : CDate)
    (loan : Loan) (payments : List Payment) (selectedDate : CDate) :
    amountPaidToday history todayD =
      ((history.filter (fun p => p.payment_date == todayD)).map Payment.amount).sum ∧
    remainingDueToday target history todayD =
      max 0 (target - amountPaidToday history todayD) ∧
    (isFullyPaidToday target history todayD = true ↔
      target ≤ amountPaidToday history todayD) ∧
    ((collectionAnnotate loan payments selectedDate).isPaid = true ↔
      ∃ p ∈ payments, p.loan_id = loan.id ∧ p.payment_date = selectedDate) ∧
    (collectionAnnotate loan payments selectedDate).paidAmount =
      (match payments.find?
          (fun p => p.loan_id == loan.id && p.payment_date == selectedDate) with
       | some p => p.amount
       | none => 0) := by
  refine ⟨?_, rfl, ?_, ?_, rfl⟩
  · unfold amountPaidToday paymentsToday
    rw [foldl_add_amount]
    simp
  · unfold isFullyPaidToday
    simp
  · show (payments.find?
        (fun p => p.loan_id == loan.id && p.payment_date == selectedDate)).isSome = true ↔ _
    simp [List.find?_isSome, Bool.and_eq_true]

/-- C6 counterexample: one partial payment of 50 against a dashboard target
of 120 sets the paid flag although the amount collected on the date (50) is
below the target. -/
theorem collection_paid_flag_counterexample :
    (collectionAnnotate loanCex [payCex] dJan2).isPaid = true ∧
    (collectionAnnotate loanCex [payCex] dJan2).targetAmount = 120 ∧
    ((([payCex] : List Payment).filter
        (fun p => p.loan_id == loanCex.id && p.payment_date == dJan2)).map
      Payment.amount).sum = 50 ∧
    ¬((50 : ℚ) ≥ 120) := by
  have hdiv : schedDivisor loanCex.payment_frequency
      (termDays loanCex.start_date loanCex.due_date) = 1 := by decide
  refine ⟨rfl, ?_, ?_, by norm_num⟩
  · show loanCex.total_payable /
        ((schedDivisor loanCex.payment_frequency
            (termDays loanCex.start_date loanCex.due_date) : Int) : ℚ) = 120
    rw [hdiv]
    norm_num [loanCex]
  · norm_num [payCex, loanCex, dJan2, List.filter_cons]

/-- C1: for a lump_sum loan the schedule is the single entry at the due
date regardless of term length; otherwise its dates are exactly the ones
obtained by repeatedly advancing from start_date by one period while the
advanced date is ≤ due_date, capped at 1,000 entries, so the first entry is
one period after start_date and every entry is strictly after start_date;
one period means +1 day for daily, +7 days for weekly and +1 calendar month
for monthly. -/
theorem schedule_dates_correct (loan : Loan) (today : CDate) :
    ((loan.payment_frequency.getD "daily" = "lump_sum" →
      (schedule loan today).map ScheduleEntry.date = [loan.due_date]) ∧
     (loan.payment_frequency.getD "daily" ≠ "lump_sum" →
      ((schedule loan today).map ScheduleEntry.date =
        ((List.range 1000).map
            (fun i =>
              (incrementDate (loan.payment_frequency.getD "daily") loan.due_date)^[i + 1]
                loan.start_date)).takeWhile (fun c => dateLeB c loan.due_date) ∧
       (schedule loan today).length ≤ 1000 ∧
       (∀ c ∈ (schedule loan today).map ScheduleEntry.date,
          dateLtB loan.start_date c = true) ∧
       (∀ c, ((schedule loan today).map ScheduleEntry.date).head? = some c →
          c = incrementDate (loan.payment_frequency.getD "daily") loan.due_date
                loan.start_date)))) ∧
    (∀ d, incrementDate "daily" loan.due_date d = nextDay d) ∧
    (∀ d, incrementDate "weekly" loan.due_date d = addDaysN 7 d) ∧
    (∀ d, incrementDate "monthly" loan.due_date d = addMonth d) := by
  refine ⟨⟨?_, ?_⟩, fun d => rfl, fun d => rfl, fun d => rfl⟩
  · intro hf
    rw [schedule_map_date]
    unfold scheduleDates
    rw [if_pos hf]
  · intro hf
    have hmap := schedule_map_date loan today
    refine ⟨?_, ?_, ?_, ?_⟩
    · rw [hmap]
      unfold scheduleDates
      rw [if_neg hf, scheduleLoop_eq_takeWhile]
      rfl
    · have hlen : (schedule loan today).length =
          ((schedule loan today).map ScheduleEntry.date).length :=
        (List.length_map _ _).symm
      rw [hlen, hmap]
      unfold scheduleDates
      rw [if_neg hf, scheduleLoop_eq_takeWhile]
      exact le_trans (List.Sublist.length_le (List.takeWhile_sublist _))
        (le_of_eq (by rw [List.length_map, List.length_range]))
    · intro c hc
      rw [hmap] at hc
      unfold scheduleDates at hc
      rw [if_neg hf] at hc
      exact scheduleLoop_all_gt _ _ hf 1000 _ loan.start_date
        (dateLtB_incrementDate _ hf _ _) c hc
    · intro c hc
      rw [hmap] at hc
      unfold scheduleDates at hc
      rw [if_neg hf] at hc
      exact scheduleLoop_head _ _ 999 _ c hc

/-- C1 witness: a lump_sum schedule collapses to the single due-date
entry. -/
theorem schedule_dates_correct_witness :
    (schedule loanLump dJan2).map ScheduleEntry.date = [loanLump.due_date] :=
  (schedule_dates_correct loanLump dJan2).1.1 rfl

/-- C7: a schedule entry is classified past iff its calendar date is
strictly before the reference day, today iff the dates are equal, and
upcoming otherwise — including the single lump_sum entry. -/
theorem schedule_temporal_correct (loan : Loan) (today : CDate) :
    ∀ e ∈ schedule loan today,
      (temporalClass e = "past" ↔ dateLtB e.date today = true) ∧
      (temporalClass e = "today" ↔ e.date = today) ∧
      (temporalClass e = "upcoming" ↔
        (dateLtB e.date today = false ∧ e.date ≠ today)) := by
  intro e he
  unfold schedule at he
  simp only [List.mem_map] at he
  obtain ⟨c, hc, rfl⟩ := he
  unfold temporalClass
  by_cases hlt : dateLtB c today = true
  · have hne : c ≠ today := by
      intro h
      subst h
      rw [dateLtB_irrefl] at hlt
      exact absurd hlt (by simp)
    simp [hlt, hne]
  · have hlt2 : dateLtB c today = false := by simpa using hlt
    by_cases heq : c = today
    · subst heq
      simp [dateLtB_irrefl]
    · simp [hlt2, heq]

/-- C7 witness: the lump_sum entry on its due date is classified today. -/
theorem schedule_temporal_correct_witness :
    temporalClass ⟨dJan3, false, true, 0⟩ = "today" := by
  have hs : schedule loanLumpZero dJan3 = [⟨dJan3, false, true, 0⟩] := by
    simp [schedule, scheduleDates, loanLumpZero, dateLtB_irrefl]
  have hmem : (⟨dJan3, false, true, 0⟩ : ScheduleEntry) ∈ schedule loanLumpZero dJan3 := by
    rw [hs]
    exact List.mem_singleton.mpr rfl
  exact ((schedule_temporal_correct loanLumpZero dJan3 _ hmem).2.1).mpr rfl

end Lending
